import Mathlib

/-!
Shallow embedding of `cartography/intel/aws/ec2/launch_templates.py`.

Python dictionaries (the raw records returned by the AWS API and the
transformed records handed to the graph loader) are modelled as association
lists from string keys to a `Value` type covering the payloads the module
manipulates: strings, integers, booleans, `None`, datetime objects (carrying
their `.timestamp()` value as a rational number), lists and nested
dictionaries.  Fallible Python code (subscripting a missing key, calling
`.timestamp()` on a non-datetime, `.get` on a non-dict, an AWS `ClientError`)
is modelled with `Except String`.
-/

/-- A Python value as used by the launch-template sync module. -/
inductive Value where
  | null : Value
  | vStr : String → Value
  | vInt : Int → Value
  | vBool : Bool → Value
  | vTime : Rat → Value
  | vList : List Value → Value
  | vDict : List (String × Value) → Value

/-- A Python dict: an association list of string keys to values. -/
abbrev Dict := List (String × Value)

mutual

/-- Structural equality on values, mirroring Python `==` on these shapes. -/
def Value.beq : Value → Value → Bool
  | .null, .null => true
  | .vStr a, .vStr b => a == b
  | .vInt a, .vInt b => a == b
  | .vBool a, .vBool b => a == b
  | .vTime a, .vTime b => a == b
  | .vList a, .vList b => beqValList a b
  | .vDict a, .vDict b => beqEntryList a b
  | _, _ => false

/-- Elementwise equality of value lists. -/
def beqValList : List Value → List Value → Bool
  | [], [] => true
  | a :: as, b :: bs => Value.beq a b && beqValList as bs
  | _, _ => false

/-- Elementwise equality of dict entry lists. -/
def beqEntryList : List (String × Value) → List (String × Value) → Bool
  | [], [] => true
  | (k1, v1) :: as, (k2, v2) :: bs => k1 == k2 && Value.beq v1 v2 && beqEntryList as bs
  | _, _ => false

end

mutual

theorem Value.eq_of_beq : ∀ {a b : Value}, Value.beq a b = true → a = b
  | .null, .null, _ => rfl
  | .vStr a, .vStr b, h => by simp [Value.beq] at h; simp [h]
  | .vInt a, .vInt b, h => by simp [Value.beq] at h; simp [h]
  | .vBool a, .vBool b, h => by simp [Value.beq] at h; simp [h]
  | .vTime a, .vTime b, h => by simp [Value.beq] at h; simp [h]
  | .vList a, .vList b, h => by
      simp only [Value.beq] at h
      simp [eqValList_of_beq h]
  | .vDict a, .vDict b, h => by
      simp only [Value.beq] at h
      simp [eqEntryList_of_beq h]
  | .null, .vStr _, h => by simp [Value.beq] at h
  | .vStr _, .null, h => by simp [Value.beq] at h

theorem eqValList_of_beq : ∀ {a b : List Value}, beqValList a b = true → a = b
  | [], [], _ => rfl
  | a :: as, b :: bs, h => by
      simp only [beqValList, Bool.and_eq_true] at h
      simp [Value.eq_of_beq h.1, eqValList_of_beq h.2]

theorem eqEntryList_of_beq : ∀ {a b : List (String × Value)}, beqEntryList a b = true → a = b
  | [], [], _ => rfl
  | (k1, v1) :: as, (k2, v2) :: bs, h => by
      simp only [beqEntryList, Bool.and_eq_true] at h
      obtain ⟨⟨hk, hv⟩, hs⟩ := h
      simp only [beq_iff_eq] at hk
      simp [hk, Value.eq_of_beq hv, eqEntryList_of_beq hs]

end

mutual

theorem Value.beq_self : ∀ a : Value, Value.beq a a = true
  | .null => rfl
  | .vStr a => by simp [Value.beq]
  | .vInt a => by simp [Value.beq]
  | .vBool a => by simp [Value.beq]
  | .vTime a => by simp [Value.beq]
  | .vList a => by simp only [Value.beq]; exact beqValList_self a
  | .vDict a => by simp only [Value.beq]; exact beqEntryList_self a

theorem beqValList_self : ∀ a : List Value, beqValList a a = true
  | [] => rfl
  | a :: as => by
      simp only [beqValList, Bool.and_eq_true]
      exact ⟨Value.beq_self a, beqValList_self as⟩

theorem beqEntryList_self : ∀ a : List (String × Value), beqEntryList a a = true
  | [] => rfl
  | (k, v) :: as => by
      simp only [beqEntryList, Bool.and_eq_true, beq_iff_eq]
      exact ⟨⟨trivial, Value.beq_self v⟩, beqEntryList_self as⟩

end

instance : BEq Value := ⟨Value.beq⟩

instance : LawfulBEq Value where
  eq_of_beq := Value.eq_of_beq
  rfl := Value.beq_self _

instance : DecidableEq Value := fun a b =>
  decidable_of_iff (Value.beq a b = true)
    ⟨Value.eq_of_beq, fun h => h ▸ Value.beq_self a⟩

/-- First-match key lookup in a dict (Python `d[k]` / `k in d` semantics;
keys of real records are unique, and updates below keep the first match
authoritative). -/
def lookupKey : Dict → String → Option Value
  | [], _ => none
  | (k1, v) :: rest, k => if k1 = k then some v else lookupKey rest k

/-- Python `d[k] = v`: replace the value at an existing key in place, else
append the new key at the end (insertion order is preserved, as for Python
dicts). -/
def setItem : Dict → String → Value → Dict
  | [], k, v => [(k, v)]
  | (k1, v1) :: rest, k, v =>
      if k1 = k then (k1, v) :: rest else (k1, v1) :: setItem rest k v

/-- Python `d.get(k)`: the value at `k`, or `None` when the key is absent. -/
def pyGet (d : Dict) (k : String) : Value :=
  (lookupKey d k).getD Value.null

/-- Python `d[k]`: the value at `k`, or a `KeyError` when the key is absent. -/
def pyGetItem (d : Dict) (k : String) : Except String Value :=
  match lookupKey d k with
  | some v => .ok v
  | none => .error ("KeyError: " ++ k)

theorem lookupKey_setItem (d : Dict) (k : String) (v : Value) (k' : String) :
    lookupKey (setItem d k v) k' = if k = k' then some v else lookupKey d k' := by
  induction d with
  | nil => by_cases h : k = k' <;> simp [setItem, lookupKey, h]
  | cons hd tl ih =>
      obtain ⟨k1, v1⟩ := hd
      by_cases h1 : k1 = k
      · subst h1
        by_cases h2 : k1 = k' <;> simp [setItem, lookupKey, h2]
      · by_cases h2 : k1 = k'
        · have hkk : ¬(k = k') := fun h => h1 (h2.trans h.symm)
          have h1' : ¬(k' = k) := fun h => h1 (h2.trans h)
          simp [setItem, lookupKey, h1, h2, hkk, h1']
        · simp [setItem, lookupKey, h1, h2, ih]

theorem lookupKey_setItem_self (d : Dict) (k : String) (v : Value) :
    lookupKey (setItem d k v) k = some v := by
  simp [lookupKey_setItem]

theorem lookupKey_setItem_ne (d : Dict) (k : String) (v : Value) (k' : String)
    (h : k ≠ k') : lookupKey (setItem d k v) k' = lookupKey d k' := by
  simp [lookupKey_setItem, h]

theorem isSome_lookupKey_setItem (d : Dict) (k : String) (v : Value) (k' : String)
    (h : (lookupKey d k').isSome) : (lookupKey (setItem d k v) k').isSome := by
  rw [lookupKey_setItem]
  by_cases hk : k = k' <;> simp [hk, h]

/-- Python `str(...)` as used on values interpolated into f-strings and log
messages by this module.  The pipeline only ever interpolates template ids
(strings) and version numbers (integers); the remaining cases are
representative renderings. -/
def pyStr : Value → String
  | .null => "None"
  | .vStr s => s
  | .vInt n => toString n
  | .vBool b => if b then "True" else "False"
  | .vTime q => toString q
  | .vList _ => "<list>"
  | .vDict _ => "<dict>"

/-- Python `int(...)` on the float returned by `datetime.timestamp()`:
truncation toward zero. -/
def pyInt (q : Rat) : Int := if 0 ≤ q then ⌊q⌋ else ⌈q⌉

/-- Python `value.timestamp()`: defined on datetime objects only; anything
else raises an `AttributeError`. -/
def timestampOf : Value → Except String Rat
  | .vTime q => .ok q
  | _ => .error "AttributeError: timestamp"

/-- Python `value.get(...)` requires a dict receiver; anything else raises an
`AttributeError`. -/
def asDict : Value → Except String Dict
  | .vDict d => .ok d
  | _ => .error "AttributeError: get"

/-- The nested `LaunchTemplateData` field names flattened to top-level
attributes by `transform_launch_template_versions`
(`launch_templates.py` lines 132-146). -/
def flattenedFields : List String :=
  ["KernelId", "EbsOptimized", "IamInstanceProfileArn", "IamInstanceProfileName",
   "ImageId", "InstanceType", "KeyName", "MonitoringEnabled", "RamdiskId",
   "DisableApiTermination", "InstanceInitiatedShutDownBehavior",
   "SecurityGroupIds", "SecurityGroups"]

/-- The block of `current["X"] = ltd.get("X")` assignments in
`transform_launch_template_versions` (lines 132-146). -/
def flattenLTD (ltd : Dict) (current : Dict) : Dict :=
  let c := setItem current "KernelId" (pyGet ltd "KernelId")
  let c := setItem c "EbsOptimized" (pyGet ltd "EbsOptimized")
  let c := setItem c "IamInstanceProfileArn" (pyGet ltd "IamInstanceProfileArn")
  let c := setItem c "IamInstanceProfileName" (pyGet ltd "IamInstanceProfileName")
  let c := setItem c "ImageId" (pyGet ltd "ImageId")
  let c := setItem c "InstanceType" (pyGet ltd "InstanceType")
  let c := setItem c "KeyName" (pyGet ltd "KeyName")
  let c := setItem c "MonitoringEnabled" (pyGet ltd "MonitoringEnabled")
  let c := setItem c "RamdiskId" (pyGet ltd "RamdiskId")
  let c := setItem c "DisableApiTermination" (pyGet ltd "DisableApiTermination")
  let c := setItem c "InstanceInitiatedShutDownBehavior"
    (pyGet ltd "InstanceInitiatedShutDownBehavior")
  let c := setItem c "SecurityGroupIds" (pyGet ltd "SecurityGroupIds")
  setItem c "SecurityGroups" (pyGet ltd "SecurityGroups")

/-- Loop body of `transform_launch_template_versions` (lines 123-147):
copy the record, synthesize `Id` as
`f"{version['LaunchTemplateId']}-{version['VersionNumber']}"`, rewrite
`CreateTime` to `str(int(version["CreateTime"].timestamp()))`, then flatten
the nested `version["LaunchTemplateData"]` fields.  Missing keys raise
`KeyError`; a non-datetime `CreateTime` or a non-dict `LaunchTemplateData`
raises an `AttributeError`.  Failure order follows source order. -/
def transformVersion (version : Dict) : Except String Dict :=
  match pyGetItem version "LaunchTemplateId" with
  | .error e => .error e
  | .ok ltid =>
    match pyGetItem version "VersionNumber" with
    | .error e => .error e
    | .ok vnum =>
      match pyGetItem version "CreateTime" with
      | .error e => .error e
      | .ok ct =>
        match timestampOf ct with
        | .error e => .error e
        | .ok q =>
          match pyGetItem version "LaunchTemplateData" with
          | .error e => .error e
          | .ok ltdv =>
            match asDict ltdv with
            | .error e => .error e
            | .ok ltd =>
              .ok (flattenLTD ltd
                (setItem
                  (setItem version "Id" (.vStr (pyStr ltid ++ "-" ++ pyStr vnum)))
                  "CreateTime" (.vStr (toString (pyInt q)))))

/-- `transform_launch_template_versions` (lines 119-148): transform each
version record in input order; an exception from any record aborts the
whole call. -/
def transform_launch_template_versions : List Dict → Except String (List Dict)
  | [] => .ok []
  | v :: rest =>
    match transformVersion v with
    | .error e => .error e
    | .ok o =>
      match transform_launch_template_versions rest with
      | .error e => .error e
      | .ok os => .ok (o :: os)

/-- The set comprehension
`{v["LaunchTemplateId"] for v in versions}` of `transform_launch_templates`
(line 88), kept as the list of ids in scan order (only membership is ever
consumed); a version without the key raises `KeyError`. -/
def collectIds : List Dict → Except String (List Value)
  | [] => .ok []
  | v :: rest =>
    match pyGetItem v "LaunchTemplateId" with
    | .error e => .error e
    | .ok idv =>
      match collectIds rest with
      | .error e => .error e
      | .ok ids => .ok (idv :: ids)

/-- Loop of `transform_launch_templates` (lines 90-97): skip templates whose
id is not in the valid set, otherwise copy and rewrite `CreateTime` to
`str(int(template["CreateTime"].timestamp()))`. -/
def transformTemplatesLoop (valid : List Value) : List Dict → Except String (List Dict)
  | [] => .ok []
  | t :: rest =>
    match pyGetItem t "LaunchTemplateId" with
    | .error e => .error e
    | .ok tid =>
      if valid.contains tid then
        match pyGetItem t "CreateTime" with
        | .error e => .error e
        | .ok ct =>
          match timestampOf ct with
          | .error e => .error e
          | .ok q =>
            match transformTemplatesLoop valid rest with
            | .error e => .error e
            | .ok os => .ok (setItem t "CreateTime" (.vStr (toString (pyInt q))) :: os)
      else transformTemplatesLoop valid rest

/-- `transform_launch_templates` (lines 85-98). -/
def transform_launch_templates (templates versions : List Dict) :
    Except String (List Dict) :=
  match collectIds versions with
  | .error e => .error e
  | .ok valid => transformTemplatesLoop valid templates

/-- The per-template record conversion of `transform_launch_templates`
(line 96), totalized for stating its output: rewrite `CreateTime` when it is
a datetime (the only case in which the loop emits the record). -/
def convertTemplate (t : Dict) : Dict :=
  match lookupKey t "CreateTime" with
  | some (.vTime q) => setItem t "CreateTime" (.vStr (toString (pyInt q)))
  | _ => t

/-- Outcome of draining the `describe_launch_template_versions` paginator for
one template: either all pages, or a `ClientError` with an error code raised
after some prefix of pages was already delivered.  (An unknown template id
fails on the first page request, so `delivered = []` in that case.) -/
inductive ApiResult where
  | pages (ps : List (List Dict))
  | clientError (delivered : List (List Dict)) (code : String)

/-- The warning logged when a template vanished between the list call and the
version call (lines 75-79). -/
def notFoundWarning (ltid : Value) (region : String) : String :=
  "Launch template " ++ pyStr ltid ++ " no longer exists in region " ++ region

/-- `get_launch_template_versions_by_template` (lines 57-82): drain the
paginator; on a `ClientError` with code `InvalidLaunchTemplateId.NotFound`
log a warning and return what was accumulated (nothing, when the error hit
the first page request); re-raise any other `ClientError`.  The returned
pair is (versions, warning log lines). -/
def get_launch_template_versions_by_template (ltid : Value) (region : String)
    (api : ApiResult) : Except String (List Dict × List String) :=
  match api with
  | .pages ps => .ok (ps.flatten, [])
  | .clientError delivered code =>
      if code = "InvalidLaunchTemplateId.NotFound" then
        .ok (delivered.flatten, [notFoundWarning ltid region])
      else
        .error code

/-- `get_launch_template_versions` (lines 39-54): for each template read its
`LaunchTemplateId` (`KeyError` when absent) and extend the accumulator with
that template's versions.  `api` maps a template id to the paginator outcome
of its `describe_launch_template_versions` call. -/
def get_launch_template_versions (region : String) (api : Value → ApiResult) :
    List Dict → Except String (List Dict × List String)
  | [] => .ok ([], [])
  | t :: rest =>
    match pyGetItem t "LaunchTemplateId" with
    | .error e => .error e
    | .ok ltid =>
      match get_launch_template_versions_by_template ltid region (api ltid) with
      | .error e => .error e
      | .ok (vs, ws) =>
        match get_launch_template_versions region api rest with
        | .error e => .error e
        | .ok (vs2, ws2) => .ok (vs ++ vs2, ws ++ ws2)

/-- Observable calls of the orchestrator, in order. -/
inductive SyncEvent where
  | syncStartLog (region : String)
  | getTemplatesCall (region : String)
  | getVersionsCall (region : String)
  | loadTemplatesCall (region : String)
  | loadVersionsCall (region : String)
  | cleanupStartLog
  | reapRun (schema : String)
  deriving DecidableEq

/-- Trace of `cleanup` (lines 168-185): log, then one reap job per entity
type — first the template schema, then the version schema. -/
def cleanup : List SyncEvent :=
  [.cleanupStartLog, .reapRun "LaunchTemplateSchema",
   .reapRun "LaunchTemplateVersionSchema"]

/-- Trace of the region loop of `sync_ec2_launch_templates`
(lines 198-222): per region, in order — the start log, the two fetches and
the two loads (the transforms between them are the pure functions above). -/
def regionEvents (region : String) : List SyncEvent :=
  [.syncStartLog region, .getTemplatesCall region, .getVersionsCall region,
   .loadTemplatesCall region, .loadVersionsCall region]

/-- The region loop of `sync_ec2_launch_templates`, region by region. -/
def syncRegionsLoop : List String → List SyncEvent
  | [] => []
  | r :: rest => regionEvents r ++ syncRegionsLoop rest

/-- Trace of `sync_ec2_launch_templates` (lines 188-224): the region loop,
then `cleanup` once. -/
def sync_ec2_launch_templates (regions : List String) : List SyncEvent :=
  syncRegionsLoop regions ++ cleanup

/-- Events belonging to the cleanup phase. -/
def isCleanupEvent : SyncEvent → Bool
  | .cleanupStartLog => true
  | .reapRun _ => true
  | _ => false

theorem pyGetItem_ok_iff (d : Dict) (k : String) (x : Value) :
    pyGetItem d k = .ok x ↔ lookupKey d k = some x := by
  unfold pyGetItem
  cases h : lookupKey d k <;> simp

theorem timestampOf_ok_iff (c : Value) (q : Rat) :
    timestampOf c = .ok q ↔ c = .vTime q := by
  cases c <;> simp [timestampOf]

theorem asDict_ok_iff (c : Value) (d : Dict) :
    asDict c = .ok d ↔ c = .vDict d := by
  cases c <;> simp [asDict]

theorem flattenLTD_eq_foldl (ltd c : Dict) :
    flattenLTD ltd c =
      flattenedFields.foldl (fun acc f => setItem acc f (pyGet ltd f)) c := by
  simp [flattenLTD, flattenedFields]

theorem lookupKey_foldl_setItem (ltd : Dict) (fs : List String) (c : Dict)
    (k : String) :
    lookupKey (fs.foldl (fun acc f => setItem acc f (pyGet ltd f)) c) k =
      if k ∈ fs then some (pyGet ltd k) else lookupKey c k := by
  induction fs generalizing c with
  | nil => simp
  | cons f rest ih =>
      simp only [List.foldl_cons, ih, lookupKey_setItem]
      by_cases hk : k ∈ rest
      · simp [hk]
      · by_cases hf : f = k
        · subst hf
          simp [hk]
        · have hkf : ¬(k = f) := fun h => hf h.symm
          have : ¬(k ∈ f :: rest) := by simp [hk, hkf]
          simp [hk, hf, this]

theorem lookupKey_flattenLTD (ltd c : Dict) (k : String) :
    lookupKey (flattenLTD ltd c) k =
      if k ∈ flattenedFields then some (pyGet ltd k) else lookupKey c k := by
  rw [flattenLTD_eq_foldl, lookupKey_foldl_setItem]

/-- Successful per-version transform, characterized: all four required keys
were present and well-shaped and the output is the rewritten copy. -/
theorem transformVersion_ok_inv (v o : Dict)
    (h : transformVersion v = .ok o) :
    ∃ ltid vnum q ltd,
      lookupKey v "LaunchTemplateId" = some ltid ∧
      lookupKey v "VersionNumber" = some vnum ∧
      lookupKey v "CreateTime" = some (.vTime q) ∧
      lookupKey v "LaunchTemplateData" = some (.vDict ltd) ∧
      o = flattenLTD ltd
            (setItem
              (setItem v "Id" (.vStr (pyStr ltid ++ "-" ++ pyStr vnum)))
              "CreateTime" (.vStr (toString (pyInt q)))) := by
  unfold transformVersion at h
  split at h
  · exact absurd h (by simp)
  · rename_i ltid hltid
    split at h
    · exact absurd h (by simp)
    · rename_i vnum hvnum
      split at h
      · exact absurd h (by simp)
      · rename_i ct hct
        split at h
        · exact absurd h (by simp)
        · rename_i q hq
          split at h
          · exact absurd h (by simp)
          · rename_i ltdv hltdv
            split at h
            · exact absurd h (by simp)
            · rename_i ltd hltd
              refine ⟨ltid, vnum, q, ltd, (pyGetItem_ok_iff _ _ _).mp hltid,
                (pyGetItem_ok_iff _ _ _).mp hvnum, ?_, ?_, ?_⟩
              · have := (pyGetItem_ok_iff _ _ _).mp hct
                rwa [(timestampOf_ok_iff _ _).mp hq] at this
              · have := (pyGetItem_ok_iff _ _ _).mp hltdv
                rwa [(asDict_ok_iff _ _).mp hltd] at this
              · simpa using h.symm

/-- Successful per-version transform in the forward direction. -/
theorem transformVersion_eq (v : Dict) (ltid vnum : Value) (q : Rat) (ltd : Dict)
    (h1 : lookupKey v "LaunchTemplateId" = some ltid)
    (h2 : lookupKey v "VersionNumber" = some vnum)
    (h3 : lookupKey v "CreateTime" = some (.vTime q))
    (h4 : lookupKey v "LaunchTemplateData" = some (.vDict ltd)) :
    transformVersion v = .ok (flattenLTD ltd
      (setItem
        (setItem v "Id" (.vStr (pyStr ltid ++ "-" ++ pyStr vnum)))
        "CreateTime" (.vStr (toString (pyInt q))))) := by
  unfold transformVersion
  simp [pyGetItem, h1, h2, h3, h4, timestampOf, asDict]

/-- A successful list transform pairs the records up one-to-one, in order. -/
theorem transform_versions_nth (versions out : List Dict)
    (h : transform_launch_template_versions versions = .ok out) :
    out.length = versions.length ∧
      ∀ i (h1 : i < versions.length) (h2 : i < out.length),
        transformVersion (versions.get ⟨i, h1⟩) = .ok (out.get ⟨i, h2⟩) := by
  induction versions generalizing out with
  | nil =>
      simp only [transform_launch_template_versions] at h
      obtain rfl : ([] : List Dict) = out := by simpa using h
      exact ⟨rfl, fun i h1 => absurd h1 (by simp)⟩
  | cons v rest ih =>
      simp only [transform_launch_template_versions] at h
      split at h
      · exact absurd h (by simp)
      · rename_i o hv
        split at h
        · exact absurd h (by simp)
        · rename_i os hrest
          obtain rfl : o :: os = out := by simpa using h
          obtain ⟨hlen, hidx⟩ := ih os hrest
          refine ⟨by simp [hlen], fun i h1 h2 => ?_⟩
          cases i with
          | zero => simpa using hv
          | succ n =>
              simpa using hidx n (by simpa using h1) (by simpa using h2)

/-- When every version carries a `LaunchTemplateId`, the valid-id set of
`transform_launch_templates` is the list of those ids in scan order. -/
theorem collectIds_eq (versions : List Dict)
    (h : ∀ v ∈ versions, (lookupKey v "LaunchTemplateId").isSome) :
    collectIds versions =
      .ok (versions.map (fun v => pyGet v "LaunchTemplateId")) := by
  induction versions with
  | nil => rfl
  | cons v rest ih =>
      obtain ⟨x, hx⟩ := Option.isSome_iff_exists.mp (h v (by simp))
      have hrest := ih (fun w hw => h w (by simp [hw]))
      simp only [collectIds, pyGetItem, hx, hrest]
      simp [pyGet, hx]

/-- The template loop emits exactly the templates whose id is in the valid
set, in input order, with `CreateTime` rewritten. -/
theorem transformTemplatesLoop_eq (valid : List Value) (templates : List Dict)
    (h : ∀ t ∈ templates, (lookupKey t "LaunchTemplateId").isSome ∧
          ∃ q, lookupKey t "CreateTime" = some (.vTime q)) :
    transformTemplatesLoop valid templates =
      .ok ((templates.filter
              (fun t => decide (pyGet t "LaunchTemplateId" ∈ valid))).map
            convertTemplate) := by
  induction templates with
  | nil => rfl
  | cons t rest ih =>
      obtain ⟨hid, q, hct⟩ := h t (by simp)
      obtain ⟨x, hx⟩ := Option.isSome_iff_exists.mp hid
      have hrest := ih (fun w hw => h w (by simp [hw]))
      have hpg : pyGet t "LaunchTemplateId" = x := by simp [pyGet, hx]
      by_cases hcm : x ∈ valid
      · have hc : valid.contains x = true := by simpa using hcm
        simp only [transformTemplatesLoop, pyGetItem, hx, hc, if_true,
          hct, timestampOf, hrest]
        simp [List.filter_cons, hpg, hcm, convertTemplate, hct]
      · have hc : valid.contains x = false := by simpa using hcm
        simp only [transformTemplatesLoop, pyGetItem, hx, hc, Bool.false_eq_true,
          if_false, hrest]
        simp [List.filter_cons, hpg, hcm]

/-- No event of the region loop belongs to the cleanup phase. -/
theorem regionLoop_no_cleanup (regions : List String) :
    ∀ e ∈ syncRegionsLoop regions, isCleanupEvent e = false := by
  induction regions with
  | nil => simp [syncRegionsLoop]
  | cons r rest ih =>
      intro e he
      rcases List.mem_append.mp (by simpa [syncRegionsLoop] using he) with h | h
      · rcases (by simpa [regionEvents] using h : e = _ ∨ e = _ ∨ e = _ ∨ e = _ ∨ e = _)
          with rfl | rfl | rfl | rfl | rfl <;> rfl
      · exact ih e h

/-- `transformVersion` cannot succeed on a record with no
`LaunchTemplateData` key: some extraction step raises. -/
theorem transformVersion_err_of_no_ltd (v : Dict)
    (h : lookupKey v "LaunchTemplateData" = none) :
    ∃ e, transformVersion v = .error e := by
  cases h1 : lookupKey v "LaunchTemplateId" with
  | none =>
      exact ⟨"KeyError: " ++ "LaunchTemplateId",
        by simp [transformVersion, pyGetItem, h1]⟩
  | some ltid =>
    cases h2 : lookupKey v "VersionNumber" with
    | none =>
        exact ⟨"KeyError: " ++ "VersionNumber",
          by simp [transformVersion, pyGetItem, h1, h2]⟩
    | some vnum =>
      cases h3 : lookupKey v "CreateTime" with
      | none =>
          exact ⟨"KeyError: " ++ "CreateTime",
            by simp [transformVersion, pyGetItem, h1, h2, h3]⟩
      | some ct =>
        cases h4 : timestampOf ct with
        | error e =>
            exact ⟨e, by simp [transformVersion, pyGetItem, h1, h2, h3, h4]⟩
        | ok q =>
            exact ⟨"KeyError: " ++ "LaunchTemplateData",
              by simp [transformVersion, pyGetItem, h1, h2, h3, h4, h]⟩

/-- C1: for any list of templates and any list of versions (each record
carrying the keys the code reads: every version a `LaunchTemplateId`, every
template a `LaunchTemplateId` and a datetime `CreateTime`),
`transform_launch_templates` emits exactly the templates whose id occurs in
at least one version record: a template whose id is absent from the versions
list is excluded, one whose id occurs at least once is included, and the
output is the input order of `templates` restricted to the kept ones (each
kept record being its `CreateTime`-rewritten copy). -/
theorem orphan_template_filtering (templates versions : List Dict)
    (hv : ∀ v ∈ versions, (lookupKey v "LaunchTemplateId").isSome)
    (ht : ∀ t ∈ templates, (lookupKey t "LaunchTemplateId").isSome ∧
          ∃ q, lookupKey t "CreateTime" = some (.vTime q)) :
    transform_launch_templates templates versions =
      .ok ((templates.filter
              (fun t => decide (pyGet t "LaunchTemplateId" ∈
                versions.map (fun v => pyGet v "LaunchTemplateId")))).map
            convertTemplate) := by
  unfold transform_launch_templates
  rw [collectIds_eq versions hv]
  exact transformTemplatesLoop_eq _ _ ht

theorem orphan_template_filtering_witness :
    transform_launch_templates
        [[("LaunchTemplateId", Value.vStr "lt-1"), ("CreateTime", Value.vTime 0)],
         [("LaunchTemplateId", Value.vStr "lt-2"), ("CreateTime", Value.vTime 0)]]
        [[("LaunchTemplateId", Value.vStr "lt-1")]]
      = .ok [[("LaunchTemplateId", Value.vStr "lt-1"),
              ("CreateTime", Value.vStr "0")]] :=
  orphan_template_filtering
    [[("LaunchTemplateId", Value.vStr "lt-1"), ("CreateTime", Value.vTime 0)],
     [("LaunchTemplateId", Value.vStr "lt-2"), ("CreateTime", Value.vTime 0)]]
    [[("LaunchTemplateId", Value.vStr "lt-1")]]
    (by intro v hv
        rcases (by simpa using hv : v = _) with rfl
        rfl)
    (by intro t htm
        rcases (by simpa using htm : t = _ ∨ t = _) with rfl | rfl
        · exact ⟨rfl, 0, rfl⟩
        · exact ⟨rfl, 0, rfl⟩)

/-- C2: when the per-template version fetch fails with the not-found error
code (which an unknown template id raises on the first page request, before
any page is delivered), the function returns the empty list together with a
warning log line and does not raise; a failure with any other error code is
re-raised unchanged. -/
theorem not_found_tolerance (ltid : Value) (region code : String)
    (h : code ≠ "InvalidLaunchTemplateId.NotFound") :
    (get_launch_template_versions_by_template ltid region
        (.clientError [] "InvalidLaunchTemplateId.NotFound")
      = .ok ([], [notFoundWarning ltid region])) ∧
    (∀ delivered, get_launch_template_versions_by_template ltid region
        (.clientError delivered code) = .error code) := by
  refine ⟨by simp [get_launch_template_versions_by_template], fun d => ?_⟩
  simp [get_launch_template_versions_by_template, h]

theorem not_found_tolerance_witness :
    ("UnauthorizedOperation" ≠ "InvalidLaunchTemplateId.NotFound") ∧
    ((get_launch_template_versions_by_template (Value.vStr "lt-1") "us-east-1"
        (.clientError [] "InvalidLaunchTemplateId.NotFound")
      = .ok ([], [notFoundWarning (Value.vStr "lt-1") "us-east-1"])) ∧
     (∀ delivered, get_launch_template_versions_by_template (Value.vStr "lt-1")
        "us-east-1" (.clientError delivered "UnauthorizedOperation")
      = .error "UnauthorizedOperation")) :=
  ⟨by decide,
   not_found_tolerance (Value.vStr "lt-1") "us-east-1" "UnauthorizedOperation"
     (by decide)⟩

/-- C3: for the record at any position of a successful
`transform_launch_template_versions` run, every tracked field name present in
the nested `LaunchTemplateData` appears top-level in the output with the
identical value, and every tracked field name absent from it appears
top-level as null (Python `None`) — never coerced to a default such as an
empty string or zero. -/
theorem version_field_flattening (versions out : List Dict) (i : Nat)
    (h1 : i < versions.length) (h2 : i < out.length) (ltd : Dict)
    (h : transform_launch_template_versions versions = .ok out)
    (hltd : lookupKey (versions.get ⟨i, h1⟩) "LaunchTemplateData"
      = some (.vDict ltd)) :
    ∀ f ∈ flattenedFields,
      (∀ w, lookupKey ltd f = some w →
          lookupKey (out.get ⟨i, h2⟩) f = some w) ∧
      (lookupKey ltd f = none →
          lookupKey (out.get ⟨i, h2⟩) f = some Value.null) := by
  have hv := (transform_versions_nth versions out h).2 i h1 h2
  obtain ⟨ltid, vnum, q, ltd', ha, hb, hc, hd, ho⟩ := transformVersion_ok_inv _ _ hv
  obtain rfl : ltd' = ltd := by rw [hd] at hltd; simpa using hltd
  intro f hf
  constructor
  · intro w hw
    rw [ho, lookupKey_flattenLTD, if_pos hf]
    simp [pyGet, hw]
  · intro hw
    rw [ho, lookupKey_flattenLTD, if_pos hf]
    simp [pyGet, hw]

theorem version_field_flattening_witness :
    (transform_launch_template_versions
        [[("LaunchTemplateId", Value.vStr "lt-1"), ("VersionNumber", Value.vInt 1),
          ("CreateTime", Value.vTime 0),
          ("LaunchTemplateData",
            Value.vDict [("ImageId", Value.vStr "ami-1"),
                         ("EbsOptimized", Value.vBool true)])]]
      = .ok [[("LaunchTemplateId", Value.vStr "lt-1"), ("VersionNumber", Value.vInt 1),
          ("CreateTime", Value.vStr "0"),
          ("LaunchTemplateData",
            Value.vDict [("ImageId", Value.vStr "ami-1"),
                         ("EbsOptimized", Value.vBool true)]),
          ("Id", Value.vStr "lt-1-1"),
          ("KernelId", Value.null), ("EbsOptimized", Value.vBool true),
          ("IamInstanceProfileArn", Value.null),
          ("IamInstanceProfileName", Value.null),
          ("ImageId", Value.vStr "ami-1"), ("InstanceType", Value.null),
          ("KeyName", Value.null), ("MonitoringEnabled", Value.null),
          ("RamdiskId", Value.null), ("DisableApiTermination", Value.null),
          ("InstanceInitiatedShutDownBehavior", Value.null),
          ("SecurityGroupIds", Value.null), ("SecurityGroups", Value.null)]]) ∧
    ∀ f ∈ flattenedFields,
      (∀ w, lookupKey [("ImageId", Value.vStr "ami-1"),
                       ("EbsOptimized", Value.vBool true)] f = some w →
          lookupKey [("LaunchTemplateId", Value.vStr "lt-1"), ("VersionNumber", Value.vInt 1),
          ("CreateTime", Value.vStr "0"),
          ("LaunchTemplateData",
            Value.vDict [("ImageId", Value.vStr "ami-1"),
                         ("EbsOptimized", Value.vBool true)]),
          ("Id", Value.vStr "lt-1-1"),
          ("KernelId", Value.null), ("EbsOptimized", Value.vBool true),
          ("IamInstanceProfileArn", Value.null),
          ("IamInstanceProfileName", Value.null),
          ("ImageId", Value.vStr "ami-1"), ("InstanceType", Value.null),
          ("KeyName", Value.null), ("MonitoringEnabled", Value.null),
          ("RamdiskId", Value.null), ("DisableApiTermination", Value.null),
          ("InstanceInitiatedShutDownBehavior", Value.null),
          ("SecurityGroupIds", Value.null), ("SecurityGroups", Value.null)] f = some w) ∧
      (lookupKey [("ImageId", Value.vStr "ami-1"),
                  ("EbsOptimized", Value.vBool true)] f = none →
          lookupKey [("LaunchTemplateId", Value.vStr "lt-1"), ("VersionNumber", Value.vInt 1),
          ("CreateTime", Value.vStr "0"),
          ("LaunchTemplateData",
            Value.vDict [("ImageId", Value.vStr "ami-1"),
                         ("EbsOptimized", Value.vBool true)]),
          ("Id", Value.vStr "lt-1-1"),
          ("KernelId", Value.null), ("EbsOptimized", Value.vBool true),
          ("IamInstanceProfileArn", Value.null),
          ("IamInstanceProfileName", Value.null),
          ("ImageId", Value.vStr "ami-1"), ("InstanceType", Value.null),
          ("KeyName", Value.null), ("MonitoringEnabled", Value.null),
          ("RamdiskId", Value.null), ("DisableApiTermination", Value.null),
          ("InstanceInitiatedShutDownBehavior", Value.null),
          ("SecurityGroupIds", Value.null), ("SecurityGroups", Value.null)] f
            = some Value.null) :=
  ⟨rfl,
   version_field_flattening
     [[("LaunchTemplateId", Value.vStr "lt-1"), ("VersionNumber", Value.vInt 1),
       ("CreateTime", Value.vTime 0),
       ("LaunchTemplateData",
         Value.vDict [("ImageId", Value.vStr "ami-1"),
                      ("EbsOptimized", Value.vBool true)])]]
     [[("LaunchTemplateId", Value.vStr "lt-1"), ("VersionNumber", Value.vInt 1),
          ("CreateTime", Value.vStr "0"),
          ("LaunchTemplateData",
            Value.vDict [("ImageId", Value.vStr "ami-1"),
                         ("EbsOptimized", Value.vBool true)]),
          ("Id", Value.vStr "lt-1-1"),
          ("KernelId", Value.null), ("EbsOptimized", Value.vBool true),
          ("IamInstanceProfileArn", Value.null),
          ("IamInstanceProfileName", Value.null),
          ("ImageId", Value.vStr "ami-1"), ("InstanceType", Value.null),
          ("KeyName", Value.null), ("MonitoringEnabled", Value.null),
          ("RamdiskId", Value.null), ("DisableApiTermination", Value.null),
          ("InstanceInitiatedShutDownBehavior", Value.null),
          ("SecurityGroupIds", Value.null), ("SecurityGroups", Value.null)]]
     0 (by decide) (by decide)
     [("ImageId", Value.vStr "ami-1"), ("EbsOptimized", Value.vBool true)]
     rfl rfl⟩

/-- C4: the id synthesized for the record at any position of a successful
`transform_launch_template_versions` run is the concatenation of its
`LaunchTemplateId`, a hyphen, and its `VersionNumber`. -/
theorem version_composite_id (versions out : List Dict) (i : Nat)
    (h1 : i < versions.length) (h2 : i < out.length) (s : String) (n : Int)
    (h : transform_launch_template_versions versions = .ok out)
    (hid : lookupKey (versions.get ⟨i, h1⟩) "LaunchTemplateId" = some (.vStr s))
    (hnum : lookupKey (versions.get ⟨i, h1⟩) "VersionNumber" = some (.vInt n)) :
    lookupKey (out.get ⟨i, h2⟩) "Id" = some (.vStr (s ++ "-" ++ toString n)) := by
  have hv := (transform_versions_nth versions out h).2 i h1 h2
  obtain ⟨ltid, vnum, q, ltd, ha, hb, hc, hd, ho⟩ := transformVersion_ok_inv _ _ hv
  obtain rfl : ltid = .vStr s := by rw [ha] at hid; simpa using hid
  obtain rfl : vnum = .vInt n := by rw [hb] at hnum; simpa using hnum
  rw [ho, lookupKey_flattenLTD, if_neg (by decide),
    lookupKey_setItem_ne _ _ _ _ (by decide : "CreateTime" ≠ "Id"),
    lookupKey_setItem_self]
  simp [pyStr]

theorem version_composite_id_witness :
    (transform_launch_template_versions
        [[("LaunchTemplateId", Value.vStr "lt-9"), ("VersionNumber", Value.vInt 3),
          ("CreateTime", Value.vTime 0), ("LaunchTemplateData", Value.vDict [])]]
      = .ok [[("LaunchTemplateId", Value.vStr "lt-9"), ("VersionNumber", Value.vInt 3),
          ("CreateTime", Value.vStr "0"), ("LaunchTemplateData", Value.vDict []),
          ("Id", Value.vStr "lt-9-3"),
          ("KernelId", Value.null), ("EbsOptimized", Value.null),
          ("IamInstanceProfileArn", Value.null),
          ("IamInstanceProfileName", Value.null),
          ("ImageId", Value.null), ("InstanceType", Value.null),
          ("KeyName", Value.null), ("MonitoringEnabled", Value.null),
          ("RamdiskId", Value.null), ("DisableApiTermination", Value.null),
          ("InstanceInitiatedShutDownBehavior", Value.null),
          ("SecurityGroupIds", Value.null), ("SecurityGroups", Value.null)]]) ∧
    lookupKey [("LaunchTemplateId", Value.vStr "lt-9"), ("VersionNumber", Value.vInt 3),
          ("CreateTime", Value.vStr "0"), ("LaunchTemplateData", Value.vDict []),
          ("Id", Value.vStr "lt-9-3"),
          ("KernelId", Value.null), ("EbsOptimized", Value.null),
          ("IamInstanceProfileArn", Value.null),
          ("IamInstanceProfileName", Value.null),
          ("ImageId", Value.null), ("InstanceType", Value.null),
          ("KeyName", Value.null), ("MonitoringEnabled", Value.null),
          ("RamdiskId", Value.null), ("DisableApiTermination", Value.null),
          ("InstanceInitiatedShutDownBehavior", Value.null),
          ("SecurityGroupIds", Value.null), ("SecurityGroups", Value.null)]
        "Id" = some (Value.vStr "lt-9-3") :=
  ⟨rfl,
   version_composite_id
     [[("LaunchTemplateId", Value.vStr "lt-9"), ("VersionNumber", Value.vInt 3),
       ("CreateTime", Value.vTime 0), ("LaunchTemplateData", Value.vDict [])]]
     [[("LaunchTemplateId", Value.vStr "lt-9"), ("VersionNumber", Value.vInt 3),
          ("CreateTime", Value.vStr "0"), ("LaunchTemplateData", Value.vDict []),
          ("Id", Value.vStr "lt-9-3"),
          ("KernelId", Value.null), ("EbsOptimized", Value.null),
          ("IamInstanceProfileArn", Value.null),
          ("IamInstanceProfileName", Value.null),
          ("ImageId", Value.null), ("InstanceType", Value.null),
          ("KeyName", Value.null), ("MonitoringEnabled", Value.null),
          ("RamdiskId", Value.null), ("DisableApiTermination", Value.null),
          ("InstanceInitiatedShutDownBehavior", Value.null),
          ("SecurityGroupIds", Value.null), ("SecurityGroups", Value.null)]]
     0 (by decide) (by decide) "lt-9" 3 rfl rfl rfl⟩

/-- C5: both transforms rewrite the creation time to the decimal string of
its epoch-seconds value truncated toward zero; a creation time of epoch
seconds 1700000000.5 becomes the string of 1700000000. -/
theorem timestamp_truncation (t v : Dict) (x y : Value) (q r : Rat) (ltd : Dict)
    (h1 : lookupKey t "LaunchTemplateId" = some x)
    (h2 : lookupKey t "CreateTime" = some (.vTime q))
    (h3 : lookupKey v "LaunchTemplateId" = some x)
    (h4 : lookupKey v "VersionNumber" = some y)
    (h5 : lookupKey v "CreateTime" = some (.vTime r))
    (h6 : lookupKey v "LaunchTemplateData" = some (.vDict ltd)) :
    (∃ o, transform_launch_templates [t] [v] = .ok [o] ∧
        lookupKey o "CreateTime" = some (.vStr (toString (pyInt q)))) ∧
    (∃ o, transform_launch_template_versions [v] = .ok [o] ∧
        lookupKey o "CreateTime" = some (.vStr (toString (pyInt r)))) ∧
    toString (pyInt ((1700000000 : Rat) + 1 / 2)) = "1700000000" := by
  refine ⟨⟨setItem t "CreateTime" (.vStr (toString (pyInt q))), ?_,
      lookupKey_setItem_self _ _ _⟩,
    ⟨flattenLTD ltd
        (setItem (setItem v "Id" (.vStr (pyStr x ++ "-" ++ pyStr y)))
          "CreateTime" (.vStr (toString (pyInt r)))), ?_, ?_⟩, ?_⟩
  · have hcontains : ([x] : List Value).contains x = true := by simp
    simp [transform_launch_templates, collectIds, pyGetItem, h3, h1,
      transformTemplatesLoop, hcontains, h2, timestampOf]
  · simp [transform_launch_template_versions,
      transformVersion_eq v x y r ltd h3 h4 h5 h6]
  · rw [lookupKey_flattenLTD, if_neg (by decide), lookupKey_setItem_self]
  · have hfl : pyInt ((1700000000 : Rat) + 1 / 2) = 1700000000 := by
      norm_num [pyInt]
    rw [hfl]
    rfl

theorem timestamp_truncation_witness :
    (lookupKey [("LaunchTemplateId", Value.vStr "lt-1"),
        ("CreateTime", Value.vTime 0)] "CreateTime" = some (Value.vTime 0)) ∧
    ((∃ o, transform_launch_templates
          [[("LaunchTemplateId", Value.vStr "lt-1"), ("CreateTime", Value.vTime 0)]]
          [[("LaunchTemplateId", Value.vStr "lt-1"), ("VersionNumber", Value.vInt 1),
            ("CreateTime", Value.vTime 0), ("LaunchTemplateData", Value.vDict [])]]
        = .ok [o] ∧
        lookupKey o "CreateTime" = some (.vStr (toString (pyInt 0)))) ∧
     (∃ o, transform_launch_template_versions
          [[("LaunchTemplateId", Value.vStr "lt-1"), ("VersionNumber", Value.vInt 1),
            ("CreateTime", Value.vTime 0), ("LaunchTemplateData", Value.vDict [])]]
        = .ok [o] ∧
        lookupKey o "CreateTime" = some (.vStr (toString (pyInt 0)))) ∧
     toString (pyInt ((1700000000 : Rat) + 1 / 2)) = "1700000000") :=
  ⟨rfl,
   timestamp_truncation
     [("LaunchTemplateId", Value.vStr "lt-1"), ("CreateTime", Value.vTime 0)]
     [("LaunchTemplateId", Value.vStr "lt-1"), ("VersionNumber", Value.vInt 1),
      ("CreateTime", Value.vTime 0), ("LaunchTemplateData", Value.vDict [])]
     (Value.vStr "lt-1") (Value.vInt 1) 0 0 []
     rfl rfl rfl rfl rfl rfl⟩

/-- C6: in every run of `sync_ec2_launch_templates` the cleanup phase starts
exactly once, every event of the per-region fetch/load loop precedes the
whole cleanup block (cleanup is never run mid-region), and within cleanup
the reap job runs exactly once per entity type — once for the template
schema and once for the version schema. -/
theorem cleanup_runs_once_after_all_regions (regions : List String) :
    ((sync_ec2_launch_templates regions).count SyncEvent.cleanupStartLog = 1) ∧
    ((sync_ec2_launch_templates regions).count
        (SyncEvent.reapRun "LaunchTemplateSchema") = 1) ∧
    ((sync_ec2_launch_templates regions).count
        (SyncEvent.reapRun "LaunchTemplateVersionSchema") = 1) ∧
    (∃ pre, sync_ec2_launch_templates regions = pre ++ cleanup ∧
        ∀ e ∈ pre, isCleanupEvent e = false) := by
  have hnot : ∀ e : SyncEvent, isCleanupEvent e = true →
      e ∉ syncRegionsLoop regions := by
    intro e he hmem
    rw [regionLoop_no_cleanup regions e hmem] at he
    exact absurd he (by simp)
  refine ⟨?_, ?_, ?_,
    ⟨syncRegionsLoop regions, rfl, regionLoop_no_cleanup regions⟩⟩
  · rw [sync_ec2_launch_templates, List.count_append,
      List.count_eq_zero.mpr (hnot SyncEvent.cleanupStartLog rfl)]
    decide
  · rw [sync_ec2_launch_templates, List.count_append,
      List.count_eq_zero.mpr (hnot (SyncEvent.reapRun "LaunchTemplateSchema") rfl)]
    decide
  · rw [sync_ec2_launch_templates, List.count_append,
      List.count_eq_zero.mpr (hnot (SyncEvent.reapRun "LaunchTemplateVersionSchema") rfl)]
    decide

/-- C7: a version record with no nested `LaunchTemplateData` object makes
`transform_launch_template_versions` raise (the extraction is not
defensively handled); no record is produced and the error is not caught. -/
theorem missing_nested_data_fatal (v : Dict) (rest : List Dict)
    (h : lookupKey v "LaunchTemplateData" = none) :
    ∃ e, transform_launch_template_versions (v :: rest) = .error e := by
  obtain ⟨e, he⟩ := transformVersion_err_of_no_ltd v h
  exact ⟨e, by simp [transform_launch_template_versions, he]⟩

theorem missing_nested_data_fatal_witness :
    (lookupKey [("LaunchTemplateId", Value.vStr "lt-1"),
        ("VersionNumber", Value.vInt 1), ("CreateTime", Value.vTime 0)]
      "LaunchTemplateData" = none) ∧
    ∃ e, transform_launch_template_versions
        [[("LaunchTemplateId", Value.vStr "lt-1"),
          ("VersionNumber", Value.vInt 1), ("CreateTime", Value.vTime 0)]]
      = .error e :=
  ⟨rfl,
   missing_nested_data_fatal
     [("LaunchTemplateId", Value.vStr "lt-1"),
      ("VersionNumber", Value.vInt 1), ("CreateTime", Value.vTime 0)]
     [] rfl⟩

/-- C8: `get_launch_template_versions` performs the per-template fetch for
each template of the list (on that template's own id) and returns the
concatenation of the per-template results — versions and warning logs alike —
in the order of the template list, with no global sorting. -/
theorem fetch_versions_concatenation (region : String) (api : Value → ApiResult)
    (templates : List Dict) (ids : Dict → Value) (f : Dict → List Dict)
    (w : Dict → List String)
    (h : ∀ t ∈ templates, lookupKey t "LaunchTemplateId" = some (ids t) ∧
          get_launch_template_versions_by_template (ids t) region (api (ids t))
            = .ok (f t, w t)) :
    get_launch_template_versions region api templates =
      .ok ((templates.map f).flatten, (templates.map w).flatten) := by
  induction templates with
  | nil => rfl
  | cons t rest ih =>
      obtain ⟨hid, hcall⟩ := h t (by simp)
      have hrest := ih (fun u hu => h u (by simp [hu]))
      simp [get_launch_template_versions, pyGetItem, hid, hcall, hrest]

theorem fetch_versions_concatenation_witness :
    get_launch_template_versions "us-east-1"
        (fun _ => .pages [[[("VersionNumber", Value.vInt 1)]],
                          [[("VersionNumber", Value.vInt 2)]]])
        [[("LaunchTemplateId", Value.vStr "lt-1")]]
      = .ok ([[("VersionNumber", Value.vInt 1)], [("VersionNumber", Value.vInt 2)]],
             []) :=
  fetch_versions_concatenation "us-east-1"
    (fun _ => .pages [[[("VersionNumber", Value.vInt 1)]],
                      [[("VersionNumber", Value.vInt 2)]]])
    [[("LaunchTemplateId", Value.vStr "lt-1")]]
    (fun _ => Value.vStr "lt-1")
    (fun _ => [[("VersionNumber", Value.vInt 1)], [("VersionNumber", Value.vInt 2)]])
    (fun _ => [])
    (by intro u hu
        rcases (by simpa using hu : u = _) with rfl
        exact ⟨rfl, rfl⟩)

/-- C9: a successful `transform_launch_template_versions` run returns
exactly one output record per input version, in the input order — no version
record is filtered out or dropped (unlike the template transform, there is
no orphan filtering here). -/
theorem version_transform_one_to_one (versions out : List Dict)
    (h : transform_launch_template_versions versions = .ok out) :
    out.length = versions.length ∧
      ∀ i (h1 : i < versions.length) (h2 : i < out.length),
        transformVersion (versions.get ⟨i, h1⟩) = .ok (out.get ⟨i, h2⟩) :=
  transform_versions_nth versions out h

theorem version_transform_one_to_one_witness :
    (transform_launch_template_versions
        [[("LaunchTemplateId", Value.vStr "lt-1"), ("VersionNumber", Value.vInt 1),
          ("CreateTime", Value.vTime 0), ("LaunchTemplateData", Value.vDict [])]]
      = .ok [[("LaunchTemplateId", Value.vStr "lt-1"), ("VersionNumber", Value.vInt 1),
          ("CreateTime", Value.vStr "0"), ("LaunchTemplateData", Value.vDict []),
          ("Id", Value.vStr "lt-1-1"),
          ("KernelId", Value.null), ("EbsOptimized", Value.null),
          ("IamInstanceProfileArn", Value.null),
          ("IamInstanceProfileName", Value.null),
          ("ImageId", Value.null), ("InstanceType", Value.null),
          ("KeyName", Value.null), ("MonitoringEnabled", Value.null),
          ("RamdiskId", Value.null), ("DisableApiTermination", Value.null),
          ("InstanceInitiatedShutDownBehavior", Value.null),
          ("SecurityGroupIds", Value.null), ("SecurityGroups", Value.null)]]) ∧
    ([[("LaunchTemplateId", Value.vStr "lt-1"), ("VersionNumber", Value.vInt 1),
          ("CreateTime", Value.vStr "0"), ("LaunchTemplateData", Value.vDict []),
          ("Id", Value.vStr "lt-1-1"),
          ("KernelId", Value.null), ("EbsOptimized", Value.null),
          ("IamInstanceProfileArn", Value.null),
          ("IamInstanceProfileName", Value.null),
          ("ImageId", Value.null), ("InstanceType", Value.null),
          ("KeyName", Value.null), ("MonitoringEnabled", Value.null),
          ("RamdiskId", Value.null), ("DisableApiTermination", Value.null),
          ("InstanceInitiatedShutDownBehavior", Value.null),
          ("SecurityGroupIds", Value.null), ("SecurityGroups", Value.null)]].length
       = [[("LaunchTemplateId", Value.vStr "lt-1"), ("VersionNumber", Value.vInt 1),
          ("CreateTime", Value.vTime 0),
          ("LaunchTemplateData", Value.vDict [])]].length) :=
  ⟨rfl,
   (version_transform_one_to_one
     [[("LaunchTemplateId", Value.vStr "lt-1"), ("VersionNumber", Value.vInt 1),
       ("CreateTime", Value.vTime 0), ("LaunchTemplateData", Value.vDict [])]]
     [[("LaunchTemplateId", Value.vStr "lt-1"), ("VersionNumber", Value.vInt 1),
          ("CreateTime", Value.vStr "0"), ("LaunchTemplateData", Value.vDict []),
          ("Id", Value.vStr "lt-1-1"),
          ("KernelId", Value.null), ("EbsOptimized", Value.null),
          ("IamInstanceProfileArn", Value.null),
          ("IamInstanceProfileName", Value.null),
          ("ImageId", Value.null), ("InstanceType", Value.null),
          ("KeyName", Value.null), ("MonitoringEnabled", Value.null),
          ("RamdiskId", Value.null), ("DisableApiTermination", Value.null),
          ("InstanceInitiatedShutDownBehavior", Value.null),
          ("SecurityGroupIds", Value.null), ("SecurityGroups", Value.null)]]
     rfl).1⟩

/-- C10 as stated is false on the code: the synthesized `Id` attribute
overwrites a pre-existing `Id` key of the input record, and `Id` is neither
`CreateTime` nor one of the flattened field names, so not every original key
outside those exceptions keeps its value. -/
theorem version_transform_frame_counterexample :
    ("Id" ∉ flattenedFields) ∧ ("Id" ≠ "CreateTime") ∧
    (lookupKey [("Id", Value.vStr "orig"),
        ("LaunchTemplateId", Value.vStr "lt-1"), ("VersionNumber", Value.vInt 1),
        ("CreateTime", Value.vTime 0), ("LaunchTemplateData", Value.vDict [])]
      "Id" = some (Value.vStr "orig")) ∧
    (transform_launch_template_versions
        [[("Id", Value.vStr "orig"),
          ("LaunchTemplateId", Value.vStr "lt-1"), ("VersionNumber", Value.vInt 1),
          ("CreateTime", Value.vTime 0), ("LaunchTemplateData", Value.vDict [])]]
      = .ok [[("Id", Value.vStr "lt-1-1"),
          ("LaunchTemplateId", Value.vStr "lt-1"), ("VersionNumber", Value.vInt 1),
          ("CreateTime", Value.vStr "0"), ("LaunchTemplateData", Value.vDict []),
          ("KernelId", Value.null), ("EbsOptimized", Value.null),
          ("IamInstanceProfileArn", Value.null),
          ("IamInstanceProfileName", Value.null),
          ("ImageId", Value.null), ("InstanceType", Value.null),
          ("KeyName", Value.null), ("MonitoringEnabled", Value.null),
          ("RamdiskId", Value.null), ("DisableApiTermination", Value.null),
          ("InstanceInitiatedShutDownBehavior", Value.null),
          ("SecurityGroupIds", Value.null), ("SecurityGroups", Value.null)]]) ∧
    (lookupKey [("Id", Value.vStr "lt-1-1"),
          ("LaunchTemplateId", Value.vStr "lt-1"), ("VersionNumber", Value.vInt 1),
          ("CreateTime", Value.vStr "0"), ("LaunchTemplateData", Value.vDict []),
          ("KernelId", Value.null), ("EbsOptimized", Value.null),
          ("IamInstanceProfileArn", Value.null),
          ("IamInstanceProfileName", Value.null),
          ("ImageId", Value.null), ("InstanceType", Value.null),
          ("KeyName", Value.null), ("MonitoringEnabled", Value.null),
          ("RamdiskId", Value.null), ("DisableApiTermination", Value.null),
          ("InstanceInitiatedShutDownBehavior", Value.null),
          ("SecurityGroupIds", Value.null), ("SecurityGroups", Value.null)]
      "Id" ≠ some (Value.vStr "orig")) :=
  ⟨by decide, by decide, rfl, rfl, by decide⟩

/-- C10 (amended): each output record of a successful
`transform_launch_template_versions` run retains every key of its input
record, every original key other than the synthesized `Id`, the rewritten
`CreateTime`, and the flattened field names keeps its original value
unchanged, and the nested `LaunchTemplateData` entry itself is still present
with its original value — flattening adds attributes but removes nothing. -/
theorem version_transform_frame (versions out : List Dict) (i : Nat)
    (h1 : i < versions.length) (h2 : i < out.length)
    (h : transform_launch_template_versions versions = .ok out) :
    (∀ k, (lookupKey (versions.get ⟨i, h1⟩) k).isSome →
        (lookupKey (out.get ⟨i, h2⟩) k).isSome) ∧
    (∀ k, k ≠ "Id" → k ≠ "CreateTime" → k ∉ flattenedFields →
        lookupKey (out.get ⟨i, h2⟩) k = lookupKey (versions.get ⟨i, h1⟩) k) ∧
    lookupKey (out.get ⟨i, h2⟩) "LaunchTemplateData" =
      lookupKey (versions.get ⟨i, h1⟩) "LaunchTemplateData" := by
  have hv := (transform_versions_nth versions out h).2 i h1 h2
  obtain ⟨ltid, vnum, q, ltd, ha, hb, hc, hd, ho⟩ := transformVersion_ok_inv _ _ hv
  refine ⟨?_, ?_, ?_⟩
  · intro k hk
    rw [ho, lookupKey_flattenLTD]
    by_cases hf : k ∈ flattenedFields
    · simp [hf]
    · rw [if_neg hf]
      exact isSome_lookupKey_setItem _ _ _ _ (isSome_lookupKey_setItem _ _ _ _ hk)
  · intro k hkid hkct hkf
    rw [ho, lookupKey_flattenLTD, if_neg hkf,
      lookupKey_setItem_ne _ _ _ _ (fun hh => hkct hh.symm),
      lookupKey_setItem_ne _ _ _ _ (fun hh => hkid hh.symm)]
  · rw [ho, lookupKey_flattenLTD, if_neg (by decide),
      lookupKey_setItem_ne _ _ _ _ (by decide),
      lookupKey_setItem_ne _ _ _ _ (by decide)]

theorem version_transform_frame_witness :
    (transform_launch_template_versions
        [[("LaunchTemplateId", Value.vStr "lt-1"), ("VersionNumber", Value.vInt 1),
          ("CreateTime", Value.vTime 0), ("LaunchTemplateData", Value.vDict []),
          ("SourceVersion", Value.vStr "2")]]
      = .ok [[("LaunchTemplateId", Value.vStr "lt-1"), ("VersionNumber", Value.vInt 1),
          ("CreateTime", Value.vStr "0"), ("LaunchTemplateData", Value.vDict []),
          ("SourceVersion", Value.vStr "2"), ("Id", Value.vStr "lt-1-1"),
          ("KernelId", Value.null), ("EbsOptimized", Value.null),
          ("IamInstanceProfileArn", Value.null),
          ("IamInstanceProfileName", Value.null),
          ("ImageId", Value.null), ("InstanceType", Value.null),
          ("KeyName", Value.null), ("MonitoringEnabled", Value.null),
          ("RamdiskId", Value.null), ("DisableApiTermination", Value.null),
          ("InstanceInitiatedShutDownBehavior", Value.null),
          ("SecurityGroupIds", Value.null), ("SecurityGroups", Value.null)]]) ∧
    ((∀ k, (lookupKey [("LaunchTemplateId", Value.vStr "lt-1"),
          ("VersionNumber", Value.vInt 1), ("CreateTime", Value.vTime 0),
          ("LaunchTemplateData", Value.vDict []),
          ("SourceVersion", Value.vStr "2")] k).isSome →
        (lookupKey [("LaunchTemplateId", Value.vStr "lt-1"), ("VersionNumber", Value.vInt 1),
          ("CreateTime", Value.vStr "0"), ("LaunchTemplateData", Value.vDict []),
          ("SourceVersion", Value.vStr "2"), ("Id", Value.vStr "lt-1-1"),
          ("KernelId", Value.null), ("EbsOptimized", Value.null),
          ("IamInstanceProfileArn", Value.null),
          ("IamInstanceProfileName", Value.null),
          ("ImageId", Value.null), ("InstanceType", Value.null),
          ("KeyName", Value.null), ("MonitoringEnabled", Value.null),
          ("RamdiskId", Value.null), ("DisableApiTermination", Value.null),
          ("InstanceInitiatedShutDownBehavior", Value.null),
          ("SecurityGroupIds", Value.null), ("SecurityGroups", Value.null)] k).isSome) ∧
     (∀ k, k ≠ "Id" → k ≠ "CreateTime" → k ∉ flattenedFields →
        lookupKey [("LaunchTemplateId", Value.vStr "lt-1"), ("VersionNumber", Value.vInt 1),
          ("CreateTime", Value.vStr "0"), ("LaunchTemplateData", Value.vDict []),
          ("SourceVersion", Value.vStr "2"), ("Id", Value.vStr "lt-1-1"),
          ("KernelId", Value.null), ("EbsOptimized", Value.null),
          ("IamInstanceProfileArn", Value.null),
          ("IamInstanceProfileName", Value.null),
          ("ImageId", Value.null), ("InstanceType", Value.null),
          ("KeyName", Value.null), ("MonitoringEnabled", Value.null),
          ("RamdiskId", Value.null), ("DisableApiTermination", Value.null),
          ("InstanceInitiatedShutDownBehavior", Value.null),
          ("SecurityGroupIds", Value.null), ("SecurityGroups", Value.null)] k =
          lookupKey [("LaunchTemplateId", Value.vStr "lt-1"),
            ("VersionNumber", Value.vInt 1), ("CreateTime", Value.vTime 0),
            ("LaunchTemplateData", Value.vDict []),
            ("SourceVersion", Value.vStr "2")] k) ∧
     lookupKey [("LaunchTemplateId", Value.vStr "lt-1"), ("VersionNumber", Value.vInt 1),
          ("CreateTime", Value.vStr "0"), ("LaunchTemplateData", Value.vDict []),
          ("SourceVersion", Value.vStr "2"), ("Id", Value.vStr "lt-1-1"),
          ("KernelId", Value.null), ("EbsOptimized", Value.null),
          ("IamInstanceProfileArn", Value.null),
          ("IamInstanceProfileName", Value.null),
          ("ImageId", Value.null), ("InstanceType", Value.null),
          ("KeyName", Value.null), ("MonitoringEnabled", Value.null),
          ("RamdiskId", Value.null), ("DisableApiTermination", Value.null),
          ("InstanceInitiatedShutDownBehavior", Value.null),
          ("SecurityGroupIds", Value.null), ("SecurityGroups", Value.null)]
        "LaunchTemplateData" =
      lookupKey [("LaunchTemplateId", Value.vStr "lt-1"),
        ("VersionNumber", Value.vInt 1), ("CreateTime", Value.vTime 0),
        ("LaunchTemplateData", Value.vDict []),
        ("SourceVersion", Value.vStr "2")] "LaunchTemplateData") :=
  ⟨rfl,
   version_transform_frame
     [[("LaunchTemplateId", Value.vStr "lt-1"), ("VersionNumber", Value.vInt 1),
       ("CreateTime", Value.vTime 0), ("LaunchTemplateData", Value.vDict []),
       ("SourceVersion", Value.vStr "2")]]
     [[("LaunchTemplateId", Value.vStr "lt-1"), ("VersionNumber", Value.vInt 1),
          ("CreateTime", Value.vStr "0"), ("LaunchTemplateData", Value.vDict []),
          ("SourceVersion", Value.vStr "2"), ("Id", Value.vStr "lt-1-1"),
          ("KernelId", Value.null), ("EbsOptimized", Value.null),
          ("IamInstanceProfileArn", Value.null),
          ("IamInstanceProfileName", Value.null),
          ("ImageId", Value.null), ("InstanceType", Value.null),
          ("KeyName", Value.null), ("MonitoringEnabled", Value.null),
          ("RamdiskId", Value.null), ("DisableApiTermination", Value.null),
          ("InstanceInitiatedShutDownBehavior", Value.null),
          ("SecurityGroupIds", Value.null), ("SecurityGroups", Value.null)]]
     0 (by decide) (by decide) rfl⟩
